import Mathlib

/-!
Verification of the royal-lava Lavalink v4 client (Queue, Node, Manager,
Rest, Player) against its natural-language specification.

Each definition below is a shallow embedding of the corresponding
JavaScript source member; JS arrays become `List`, `null`/`undefined`
become `Option`, thrown exceptions become an explicit error component,
and REST / event-emitter side effects become explicit action lists.
-/

namespace RoyalLava

/-- A Lavalink track: the opaque encoded string plus the decoded info
fields the claims need (`info.uri` for validity checks, `info.length`
for clamping).  Mirrors the track objects handled by `Player.js` and
`Queue.js`. -/
structure Track where
  encoded : String
  uri : String
  length : Option Int
deriving DecidableEq, Repr

/-- `Constants.LOOP_MODE` from `Constants` (NONE:0, TRACK:1, QUEUE:2). -/
inductive LoopMode where
  | NONE
  | TRACK
  | QUEUE
deriving DecidableEq, Repr

/-- The mutable state of `Queue` (src/Queue.js): upcoming `tracks`,
`previousTracks` history (most recent first), optional `_current`,
and the loop mode. -/
structure QueueState where
  tracks : List Track
  previousTracks : List Track
  current : Option Track
  loop : LoopMode
deriving DecidableEq, Repr

namespace Queue

/-- The `set current(track)` setter of `Queue` (src/Queue.js lines 15-23):
whenever a previous `_current` exists it is unshifted onto
`previousTracks`, and if the history then exceeds 20 entries the oldest
entry is popped; finally `_current` is assigned the new value.  Note the
setter pushes the prior current regardless of what the new value is. -/
def setCurrent (q : QueueState) (t : Option Track) : QueueState :=
  match q.current with
  | some c =>
      let hist := c :: q.previousTracks
      let hist := if hist.length > 20 then hist.dropLast else hist
      { q with previousTracks := hist, current := t }
  | none => { q with current := t }

/-- `Queue.prototype.poll` (src/Queue.js lines 67-81).  Returns the next
track (or none) together with the updated queue state.  `tracks.shift()`
on an empty array yields `undefined` and leaves the array empty, which
is `head?` / `tail` here. -/
def poll (q : QueueState) : Option Track × QueueState :=
  if q.loop = LoopMode.TRACK ∧ q.current.isSome then
    (q.current, q)
  else if q.loop = LoopMode.QUEUE then
    let q1 :=
      match q.current with
      | some c => { q with tracks := q.tracks ++ [c] }
      | none => q
    let next := q1.tracks.head?
    let q2 := { q1 with tracks := q1.tracks.tail }
    (next, setCurrent q2 next)
  else
    let next := q.tracks.head?
    let q2 := { q with tracks := q.tracks.tail }
    (next, setCurrent q2 next)

/-- The JavaScript value passed as the `position` parameter of
`Queue.prototype.add`: absent, a number, or (through the bug in
`Player.add`) a track object. -/
inductive PosArg where
  | undef
  | num (n : Int)
  | obj (t : Track)
deriving DecidableEq, Repr

/-- `Queue.prototype.add(track, position)` (src/Queue.js lines 51-65) for
a single (non-array) track argument: insert at `position` when that
argument is a number within `[0, tracks.length]`, otherwise append. -/
def addOne (q : QueueState) (t : Track) (position : PosArg) : QueueState :=
  match position with
  | PosArg.num n =>
      if 0 ≤ n ∧ n ≤ (q.tracks.length : Int) then
        { q with tracks := q.tracks.insertIdx n.toNat t }
      else
        { q with tracks := q.tracks ++ [t] }
  | _ => { q with tracks := q.tracks ++ [t] }

/-- `Queue.prototype.add` for an array argument: splice all at `position`
when it is an in-range number, otherwise push all. -/
def addMany (q : QueueState) (ts : List Track) (position : PosArg) : QueueState :=
  match position with
  | PosArg.num n =>
      if 0 ≤ n ∧ n ≤ (q.tracks.length : Int) then
        { q with tracks := q.tracks.take n.toNat ++ ts ++ q.tracks.drop n.toNat }
      else
        { q with tracks := q.tracks ++ ts }
  | _ => { q with tracks := q.tracks ++ ts }

/-- `Queue.prototype.clear` (src/Queue.js lines 98-102): empties upcoming
tracks, history and the current track. -/
def clear (q : QueueState) : QueueState :=
  { tracks := [], previousTracks := [], current := none, loop := q.loop }

/-- `get isEmpty()` of `Queue`: no upcoming tracks and no current track. -/
def isEmpty (q : QueueState) : Bool :=
  q.tracks.isEmpty && q.current.isNone

end Queue

/-- The queue effect of `Player.prototype.add` (src/Player.js lines
409-435).  The source executes the spread call
`this.queue.add(...tracksToAdd)`, so `Queue.add` receives the first
element of the array as its `track` parameter and the second element
(when present) as its `position` parameter; elements past the second are
dropped by function arity.  A one-element array arrives as
`add(track, undefined)`. -/
def playerAddQueueEffect (q : QueueState) (ts : List Track) : QueueState :=
  match ts with
  | [] => q
  | [t] => Queue.addOne q t Queue.PosArg.undef
  | t0 :: t1 :: _ => Queue.addOne q t0 (Queue.PosArg.obj t1)

end RoyalLava

namespace RoyalLava

/-- A concrete track used in counterexamples and witnesses. -/
def trackA : Track := { encoded := "encA", uri := "https://x/a", length := some 1000 }

/-- A second concrete track. -/
def trackB : Track := { encoded := "encB", uri := "https://x/b", length := some 2000 }

/-- A third concrete track. -/
def trackC : Track := { encoded := "encC", uri := "https://x/c", length := some 3000 }

/-- A queue holding a current track and empty history, used to refute C7. -/
def queueWithCurrentA : QueueState :=
  { tracks := [], previousTracks := [], current := some trackA, loop := LoopMode.NONE }

end RoyalLava

open RoyalLava

/-- C7 counterexample: the claim states that assigning `current = null`
leaves the history list unchanged, for every queue.  On the source
setter this fails: with `current = trackA` and empty history before the
assignment, the history afterwards is `[trackA]`, not `[]`. -/
theorem c7_counterexample :
    queueWithCurrentA.previousTracks = [] ∧
    (Queue.setCurrent queueWithCurrentA none).previousTracks ≠ queueWithCurrentA.previousTracks := by
  constructor
  · rfl
  · decide

/-- C7 amended: the `current` setter pushes the prior current onto the
history regardless of the new value, so assigning null appends the prior
current (as the newest history entry) whenever one exists, and leaves
the history unchanged exactly when there was no prior current.  In both
cases the current track afterwards is null. -/
theorem c7_amended (q : QueueState) :
    ((Queue.setCurrent q none).current = none) ∧
    (∀ c, q.current = some c → (Queue.setCurrent q none).previousTracks.head? = some c) ∧
    (q.current = none → (Queue.setCurrent q none).previousTracks = q.previousTracks) := by
  refine ⟨?_, ?_, ?_⟩
  · unfold Queue.setCurrent
    cases h : q.current <;> simp
  · intro c hc
    unfold Queue.setCurrent
    rw [hc]
    cases hp : q.previousTracks with
    | nil => simp
    | cons x xs =>
        simp only
        split
        · simp [List.dropLast]
        · simp
  · intro hc
    unfold Queue.setCurrent
    rw [hc]

/-- C7 witness: instantiates the amended theorem at a concrete queue
whose current track is `trackA`. -/
theorem c7_witness :
    (Queue.setCurrent queueWithCurrentA none).current = none ∧
    (Queue.setCurrent queueWithCurrentA none).previousTracks.head? = some trackA :=
  ⟨(c7_amended queueWithCurrentA).1,
   (c7_amended queueWithCurrentA).2.1 trackA rfl⟩

/-- C10 confirmed: when `Player.add` is given an array of two or more
tracks, only the first element is appended to the upcoming list; the
second element becomes the non-numeric `position` argument of
`Queue.add` and everything after the first track is silently dropped. -/
theorem c10_player_add_drops_rest (q : QueueState) (t0 t1 : Track) (rest : List Track) :
    (playerAddQueueEffect q (t0 :: t1 :: rest)).tracks = q.tracks ++ [t0] ∧
    (playerAddQueueEffect q (t0 :: t1 :: rest)).previousTracks = q.previousTracks ∧
    (playerAddQueueEffect q (t0 :: t1 :: rest)).current = q.current := by
  refine ⟨?_, ?_, ?_⟩ <;> rfl

namespace RoyalLava

/-- JavaScript `Math.round`: round to the nearest integer, halves toward
positive infinity. -/
def jsRound (x : ℚ) : ℤ := ⌊x + 1 / 2⌋

/-- Rational stand-in for the IEEE-754 double computation
`Math.pow(1.05, e)` appearing in `Node.Penalties`.  The exact double
value is not representable over ℚ; no theorem below depends on the
numeric output of this function, only on the Infinity/finite dichotomy
of `Penalties` and on order comparisons between penalty values. -/
def jsPow105 (e : ℚ) : ℚ := (21 / 20 : ℚ) ^ (max 0 ⌈e⌉).toNat

/-- The health snapshot stored in `Node.stats` after a `stats` payload
(fields used by `Node.Penalties`).  `memoryUsed` is `memory?.used`
(absent when the payload had no memory block), `frameStats` likewise. -/
structure NodeStats where
  players : ℚ
  systemLoad : ℚ
  cores : ℚ
  memoryUsed : Option ℚ
  frameDeficit : ℚ
  frameNulled : ℚ
  hasFrameStats : Bool
deriving DecidableEq, Repr

/-- State of the `ws` field of a `Node` (null, CONNECTING, or OPEN). -/
inductive WsHandle where
  | noWs
  | wsConnecting
  | wsOpen
deriving DecidableEq, Repr

/-- The state of a `Node` (src/Node.js): connection flags, session cache,
resume policy, reconnect bookkeeping and health snapshot.  `reconnect`
mirrors the truthiness of `options.reconnect` (nulled by `destroy()`);
`restSessionId` mirrors `rest.sessionId`. -/
structure NodeState where
  connected : Bool
  sessionId : Option String
  restSessionId : Option String
  resumeKey : Option String
  stats : Option NodeStats
  reconnectAttempt : Nat
  reconnectTimer : Bool
  ws : WsHandle
  reconnect : Bool
  maxTries : Nat
  initialDelay : Nat
  maxDelay : Nat
deriving DecidableEq, Repr

namespace Node

/-- `get Penalties()` (src/Node.js lines 31-45): `Infinity` (here `⊤`)
when the node is not connected or has no stats; otherwise the sum of the
player count, the rounded CPU term, the rounded used-memory MiB (only
when `memory?.used` is truthy), and the frame-deficit terms.
`(cores || 1)` maps a falsy (zero) core count to 1. -/
def Penalties (n : NodeState) : WithTop ℚ :=
  if ¬n.connected ∨ n.stats = none then ⊤
  else
    match n.stats with
    | none => ⊤
    | some s =>
        let cores : ℚ := if s.cores = 0 then 1 else s.cores
        let cpuTerm : ℚ := jsRound (jsPow105 (100 * s.systemLoad / cores) * 10 - 10)
        let memTerm : ℚ :=
          match s.memoryUsed with
          | some u => if u = 0 then 0 else (jsRound (u / 1024 / 1024) : ℚ)
          | none => 0
        let frameTerm : ℚ :=
          if s.hasFrameStats then s.frameDeficit / 3000 + s.frameNulled / 3000 * 2 else 0
        (s.players + cpuTerm + memTerm + frameTerm : ℚ)

end Node

/-- The availability filter of `Manager.getIdealNode` (src/Manager.js
line 188): the node must be connected AND have received READY (have a
sessionId). -/
def nodeAvailable (n : NodeState) : Bool :=
  n.connected && n.sessionId.isSome

/-- Generic first-minimum selection: the first element of `l` whose key
is minimal.  `Array.prototype.sort` with comparator
`(a, b) => a.Penalties - b.Penalties` is a stable ascending sort (with
`Infinity - Infinity = NaN` treated as equal), so taking index 0 of the
sorted array yields exactly the earliest element of minimal key, which
this left fold computes. -/
def firstMinBy {α β : Type} [LinearOrder β] (key : α → β) (l : List α) : Option α :=
  l.foldl
    (fun best n =>
      match best with
      | none => some n
      | some b => if key n < key b then some n else some b)
    none

/-- `Manager.getIdealNode` (src/Manager.js lines 186-196): filter the
node list (in insertion order) to connected nodes holding a sessionId,
stable-sort by `Penalties` ascending, return the first element (or
`undefined` when the filtered list is empty). -/
def getIdealNode (nodes : List NodeState) : Option NodeState :=
  firstMinBy Node.Penalties (nodes.filter nodeAvailable)

/-- Helper specification of the first-minimum fold, with the running
best generalized. -/
theorem firstMinBy_fold_spec {α β : Type} [LinearOrder β] (key : α → β)
    (l : List α) (b : α) :
    (l.foldl
        (fun best n =>
          match best with
          | none => some n
          | some b => if key n < key b then some n else some b)
        (some b) = some b ∧ ∀ m ∈ l, key b ≤ key m) ∨
    (∃ l1 n l2, l = l1 ++ n :: l2 ∧
      l.foldl
        (fun best n =>
          match best with
          | none => some n
          | some b => if key n < key b then some n else some b)
        (some b) = some n ∧
      key n < key b ∧ (∀ m ∈ l1, key n < key m) ∧ (∀ m ∈ l2, key n ≤ key m)) := by
  induction l generalizing b with
  | nil => exact Or.inl ⟨rfl, by simp⟩
  | cons m l ih =>
      by_cases hm : key m < key b
      · simp only [List.foldl_cons, if_pos hm]
        rcases ih m with ⟨heq, hle⟩ | ⟨l1, n, l2, hsplit, heq, hlt, hl1, hl2⟩
        · exact Or.inr ⟨[], m, l, by simp, heq, hm, by simp, hle⟩
        · refine Or.inr ⟨m :: l1, n, l2, by simp [hsplit], heq, lt_trans hlt hm, ?_, hl2⟩
          intro x hx
          rcases List.mem_cons.mp hx with hx | hx
          · exact hx ▸ hlt
          · exact hl1 x hx
      · simp only [List.foldl_cons, if_neg hm]
        rcases ih b with ⟨heq, hle⟩ | ⟨l1, n, l2, hsplit, heq, hlt, hl1, hl2⟩
        · refine Or.inl ⟨heq, ?_⟩
          intro x hx
          rcases List.mem_cons.mp hx with hx | hx
          · exact hx ▸ le_of_not_lt hm
          · exact hle x hx
        · refine Or.inr ⟨m :: l1, n, l2, by simp [hsplit], heq, hlt, ?_, hl2⟩
          intro x hx
          rcases List.mem_cons.mp hx with hx | hx
          · exact hx ▸ lt_of_lt_of_le hlt (le_of_not_lt hm)
          · exact hl1 x hx

/-- The first-minimum fold returns the earliest element of minimal key:
it is none exactly on the empty list, and otherwise splits the list
around the returned element with strictly larger keys before it and
no smaller key after it. -/
theorem firstMinBy_spec {α β : Type} [LinearOrder β] (key : α → β) (l : List α) :
    (firstMinBy key l = none ↔ l = []) ∧
    (∀ n, firstMinBy key l = some n →
      ∃ l1 l2, l = l1 ++ n :: l2 ∧
        (∀ m ∈ l1, key n < key m) ∧ (∀ m ∈ l2, key n ≤ key m)) := by
  cases l with
  | nil => exact ⟨by simp [firstMinBy], by intro n h; simp [firstMinBy] at h⟩
  | cons a l =>
      constructor
      · constructor
        · intro h
          exfalso
          unfold firstMinBy at h
          rcases firstMinBy_fold_spec key l a with ⟨heq, _⟩ | ⟨l1, n, l2, _, heq, _, _, _⟩
          · rw [List.foldl_cons] at h; simp only at h; rw [h] at heq; exact Option.noConfusion heq
          · rw [List.foldl_cons] at h; simp only at h; rw [h] at heq; exact Option.noConfusion heq
        · intro h; exact absurd h (List.cons_ne_nil a l)
      · intro n h
        unfold firstMinBy at h
        rw [List.foldl_cons] at h
        simp only at h
        rcases firstMinBy_fold_spec key l a with ⟨heq, hle⟩ | ⟨l1, m, l2, hsplit, heq, hlt, hl1, hl2⟩
        · rw [h] at heq
          injection heq with heq
          subst heq
          exact ⟨[], l, by simp, by simp, hle⟩
        · rw [h] at heq
          injection heq with heq
          subst heq
          refine ⟨a :: l1, l2, by simp [hsplit], ?_, hl2⟩
          intro x hx
          rcases List.mem_cons.mp hx with hx | hx
          · exact hx ▸ hlt
          · exact hl1 x hx

end RoyalLava

namespace RoyalLava

/-- A node that is connected and has completed READY (so it passes the
`getIdealNode` availability filter) but has not yet received any `stats`
payload, hence its penalty is `Infinity`. -/
def nodeReadyNoStats : NodeState :=
  { connected := true, sessionId := some "sess1", restSessionId := some "sess1",
    resumeKey := none, stats := none, reconnectAttempt := 0,
    reconnectTimer := false, ws := WsHandle.wsOpen, reconnect := true,
    maxTries := 10, initialDelay := 1000, maxDelay := 30000 }

end RoyalLava

/-- C3 counterexample: the claim needs `getIdealNode` to return nothing
whenever every node has `Penalties = Infinity`.  A READY node that has
not yet received a stats payload has infinite penalty, yet
`getIdealNode` still returns it, because the code filters only on
`connected && sessionId`. -/
theorem c3_counterexample :
    Node.Penalties nodeReadyNoStats = ⊤ ∧
    getIdealNode [nodeReadyNoStats] = some nodeReadyNoStats := by
  constructor
  · rfl
  · rfl

/-- C3 amended: `getIdealNode` returns nothing iff no node passes the
availability filter (connected with a sessionId) — not iff all penalties
are infinite — and otherwise it returns the earliest-inserted available
node of minimal penalty: every available node before it has strictly
larger penalty and every available node after it has penalty at least as
large. -/
theorem c3_amended (nodes : List NodeState) :
    (getIdealNode nodes = none ↔ nodes.filter nodeAvailable = []) ∧
    (∀ n, getIdealNode nodes = some n →
      ∃ l1 l2, nodes.filter nodeAvailable = l1 ++ n :: l2 ∧
        (∀ m ∈ l1, Node.Penalties n < Node.Penalties m) ∧
        (∀ m ∈ l2, Node.Penalties n ≤ Node.Penalties m)) :=
  firstMinBy_spec Node.Penalties (nodes.filter nodeAvailable)

/-- C3 witness: evaluates the amended characterization on a concrete
two-node list whose single available node is returned. -/
theorem c3_witness :
    ∃ l1 l2, [nodeReadyNoStats].filter nodeAvailable = l1 ++ nodeReadyNoStats :: l2 ∧
      (∀ m ∈ l1, Node.Penalties nodeReadyNoStats < Node.Penalties m) ∧
      (∀ m ∈ l2, Node.Penalties nodeReadyNoStats ≤ Node.Penalties m) :=
  (c3_amended [nodeReadyNoStats]).2 nodeReadyNoStats rfl


namespace RoyalLava

/-- The permanent error close codes of `Node._handleClose`
(src/Node.js line 192). -/
def permanentErrorCodes : List Int := [4004, 4005, 4006, 4009, 4015, 4016]

/-- Observable effects of the node close / reconnect path: the resulting
node state, which manager-level events were emitted, whether a reconnect
timer was scheduled (and with what delay), whether
`manager._handleNodeDisconnection(node, true)` was invoked (the
permanent-failure notification that triggers player migration or
destruction), and whether a JavaScript error was thrown. -/
structure CloseEffects where
  node : NodeState
  emittedDisconnect : Bool
  emittedError : Bool
  scheduledReconnectDelay : Option Nat
  notifiedManagerPermanently : Bool
  threw : Bool
deriving DecidableEq, Repr

namespace Node

/-- `Node._attemptReconnect` (src/Node.js lines 218-249).  No-op when a
timer is already scheduled or the manager has no userId; when the
attempt counter has reached `maxTries` it emits an error and calls
`manager._handleNodeDisconnection(this, true)`; otherwise it schedules a
reconnect after `min(initialDelay * 2 ^ attempt, maxDelay)` and bumps
the counter.  When `options.reconnect` has been nulled by `destroy()`
the delay computation dereferences null and throws. -/
def attemptReconnect (n : NodeState) (userIdSet : Bool) : CloseEffects :=
  if n.reconnectTimer then
    { node := n, emittedDisconnect := false, emittedError := false,
      scheduledReconnectDelay := none, notifiedManagerPermanently := false, threw := false }
  else if ¬userIdSet then
    { node := n, emittedDisconnect := false, emittedError := false,
      scheduledReconnectDelay := none, notifiedManagerPermanently := false, threw := false }
  else if n.reconnect ∧ n.reconnectAttempt ≥ n.maxTries then
    { node := n, emittedDisconnect := false, emittedError := true,
      scheduledReconnectDelay := none, notifiedManagerPermanently := true, threw := false }
  else if ¬n.reconnect then
    { node := n, emittedDisconnect := false, emittedError := false,
      scheduledReconnectDelay := none, notifiedManagerPermanently := false, threw := true }
  else
    let delay := min (n.initialDelay * 2 ^ n.reconnectAttempt) n.maxDelay
    { node := { n with reconnectAttempt := n.reconnectAttempt + 1, reconnectTimer := true },
      emittedDisconnect := false, emittedError := false,
      scheduledReconnectDelay := some delay, notifiedManagerPermanently := false, threw := false }

/-- First half of `Node._handleClose` (src/Node.js lines 174-188): drop
the WebSocket object, mark the node disconnected, and purge `sessionId`
(and the REST session cache) unless a resume key is configured. -/
def closedBase (n : NodeState) : NodeState :=
  if n.resumeKey = none then
    { n with
      ws := WsHandle.noWs
      connected := false
      sessionId := none
      restSessionId := none }
  else
    { n with ws := WsHandle.noWs, connected := false }

/-- `Node._handleClose(code, reason)` (src/Node.js lines 174-206): apply
`closedBase`, emit `nodeDisconnect`; for a permanent close code
additionally emit `nodeError` and return without scheduling any
reconnect and without notifying the Manager; otherwise schedule a
reconnect when reconnection is enabled, the close was not
caller-initiated (`manager.explicitDisconnect !== this`) and no timer is
pending. -/
def handleClose (n : NodeState) (code : Int) (explicitDisc : Bool) (userIdSet : Bool) :
    CloseEffects :=
  if code ∈ permanentErrorCodes then
    { node := closedBase n, emittedDisconnect := true, emittedError := true,
      scheduledReconnectDelay := none, notifiedManagerPermanently := false, threw := false }
  else if (closedBase n).reconnect ∧ ¬explicitDisc ∧ ¬(closedBase n).reconnectTimer then
    { attemptReconnect (closedBase n) userIdSet with emittedDisconnect := true }
  else
    { node := closedBase n, emittedDisconnect := true, emittedError := false,
      scheduledReconnectDelay := none, notifiedManagerPermanently := false, threw := false }

/-- `Node.disconnect(code, reason)` (src/Node.js lines 295-316): clear
the reconnect timer, force `connected = false`, close or terminate the
socket, null the `ws` field, and purge `sessionId` (and the REST session
cache) unless a resume key is configured. -/
def disconnect (n : NodeState) : NodeState :=
  let n1 := { n with reconnectTimer := false, connected := false, ws := WsHandle.noWs }
  if n1.resumeKey = none then { n1 with sessionId := none, restSessionId := none }
  else n1

/-- The session-resumption request header chosen by `Node._connect`
(src/Node.js lines 69-75): `Session-Id` when a sessionId is remembered,
else `Resume-Key` when a resume key is configured, else neither. -/
inductive ResumeHeader where
  | noHeader
  | sessionHeader (s : String)
  | resumeKeyHeader (k : String)
deriving DecidableEq, Repr

/-- Which resumption header `_connect` would send for a given node
state. `_connect` itself never modifies `sessionId`. -/
def connectResumeHeader (n : NodeState) : ResumeHeader :=
  match n.sessionId with
  | some s => ResumeHeader.sessionHeader s
  | none =>
      match n.resumeKey with
      | some k => ResumeHeader.resumeKeyHeader k
      | none => ResumeHeader.noHeader

end Node

/-- A healthy connected node with an established session and a resume
key, used in witnesses and counterexamples for the close-path claims. -/
def nodeWithResumeKey : NodeState :=
  { connected := true, sessionId := some "sessK", restSessionId := some "sessK",
    resumeKey := some "key1", stats := none, reconnectAttempt := 0,
    reconnectTimer := false, ws := WsHandle.wsOpen, reconnect := true,
    maxTries := 10, initialDelay := 1000, maxDelay := 30000 }

/-- The same node without any resume key configured. -/
def nodeNoResumeKey : NodeState :=
  { nodeWithResumeKey with resumeKey := none }

end RoyalLava

/-- C4 counterexample: on a WebSocket close with the permanent code 4004
the node does emit an error and schedules no reconnect, but it never
invokes `manager._handleNodeDisconnection(node, true)`: the claimed
notification that would migrate or destroy the bound players does not
happen. -/
theorem c4_counterexample :
    (Node.handleClose nodeNoResumeKey 4004 false true).emittedError = true ∧
    (Node.handleClose nodeNoResumeKey 4004 false true).scheduledReconnectDelay = none ∧
    (Node.handleClose nodeNoResumeKey 4004 false true).notifiedManagerPermanently = false := by
  refine ⟨rfl, rfl, rfl⟩

/-- C4 amended: for every close with a code in
{4004, 4005, 4006, 4009, 4015, 4016} the node emits `nodeError` and
schedules no reconnect, but it does not notify the Manager of a
permanent failure, so no player migration or destruction is triggered
by this path (the node merely ends up disconnected). -/
theorem c4_amended (n : NodeState) (code : Int) (explicitDisc userIdSet : Bool)
    (h : code ∈ permanentErrorCodes) :
    (Node.handleClose n code explicitDisc userIdSet).emittedError = true ∧
    (Node.handleClose n code explicitDisc userIdSet).scheduledReconnectDelay = none ∧
    (Node.handleClose n code explicitDisc userIdSet).notifiedManagerPermanently = false ∧
    (Node.handleClose n code explicitDisc userIdSet).node.connected = false := by
  unfold Node.handleClose
  rw [if_pos h]
  refine ⟨rfl, rfl, rfl, ?_⟩
  unfold Node.closedBase
  split <;> rfl

/-- C4 witness: the amended theorem applied at code 4004 on a concrete
node state. -/
theorem c4_witness :
    (4004 : Int) ∈ permanentErrorCodes ∧
    (Node.handleClose nodeWithResumeKey 4004 false true).emittedError = true ∧
    (Node.handleClose nodeWithResumeKey 4004 false true).notifiedManagerPermanently = false :=
  ⟨by decide,
   (c4_amended nodeWithResumeKey 4004 false true (by decide)).1,
   (c4_amended nodeWithResumeKey 4004 false true (by decide)).2.2.1⟩

/-- The reconnect scheduler never touches the session cache. -/
theorem attemptReconnect_node_sessionId (m : NodeState) (userIdSet : Bool) :
    (Node.attemptReconnect m userIdSet).node.sessionId = m.sessionId := by
  unfold Node.attemptReconnect
  split
  · rfl
  split
  · rfl
  split
  · rfl
  split
  · rfl
  · rfl

/-- When a resume key is configured, `closedBase` keeps the session. -/
theorem closedBase_sessionId_of_resumeKey (m : NodeState) (hk : m.resumeKey ≠ none) :
    (Node.closedBase m).sessionId = m.sessionId := by
  unfold Node.closedBase
  rw [if_neg hk]

/-- When a resume key is configured, `_handleClose` keeps the session. -/
theorem handleClose_sessionId_of_resumeKey (m : NodeState) (hk : m.resumeKey ≠ none)
    (code : Int) (explicitDisc userIdSet : Bool) :
    (Node.handleClose m code explicitDisc userIdSet).node.sessionId = m.sessionId := by
  unfold Node.handleClose
  split
  · exact closedBase_sessionId_of_resumeKey m hk
  split
  · rw [attemptReconnect_node_sessionId]
    exact closedBase_sessionId_of_resumeKey m hk
  · exact closedBase_sessionId_of_resumeKey m hk

/-- C6 confirmed: after a caller-initiated `disconnect`, `sessionId` is
null when no resume key is configured; with a resume key the sessionId
survives the disconnect, survives the subsequent close event
(`_handleClose` keeps it exactly when a resume key is set), and the next
dial presents it as the `Session-Id` header — one full close/reconnect
cycle with the session preserved. -/
theorem c6_session_cache (n : NodeState) :
    (n.resumeKey = none → (Node.disconnect n).sessionId = none) ∧
    (∀ k, n.resumeKey = some k →
      (Node.disconnect n).sessionId = n.sessionId ∧
      (∀ code explicitDisc userIdSet,
        (Node.handleClose (Node.disconnect n) code explicitDisc userIdSet).node.sessionId
          = n.sessionId) ∧
      (∀ s, n.sessionId = some s →
        ∀ code explicitDisc userIdSet,
          Node.connectResumeHeader
            (Node.handleClose (Node.disconnect n) code explicitDisc userIdSet).node
            = Node.ResumeHeader.sessionHeader s)) := by
  constructor
  · intro hk
    unfold Node.disconnect
    simp [hk]
  · intro k hk
    have hkd : (Node.disconnect n).resumeKey = some k := by
      unfold Node.disconnect
      simp [hk]
    have hkdne : (Node.disconnect n).resumeKey ≠ none := by simp [hkd]
    have hdisc : (Node.disconnect n).sessionId = n.sessionId := by
      unfold Node.disconnect
      simp [hk]
    have hclose : ∀ code explicitDisc userIdSet,
        (Node.handleClose (Node.disconnect n) code explicitDisc userIdSet).node.sessionId
          = n.sessionId := by
      intro code explicitDisc userIdSet
      rw [handleClose_sessionId_of_resumeKey (Node.disconnect n) hkdne]
      exact hdisc
    refine ⟨hdisc, hclose, ?_⟩
    intro s hs code explicitDisc userIdSet
    have hx := hclose code explicitDisc userIdSet
    unfold Node.connectResumeHeader
    rw [hx, hs]

/-- C6 witness: a concrete node with resume key "key1" and session
"sessK" keeps its session through disconnect and close, and a node
without a resume key loses it on disconnect. -/
theorem c6_witness :
    (Node.disconnect nodeNoResumeKey).sessionId = none ∧
    (Node.handleClose (Node.disconnect nodeWithResumeKey) 1006 true true).node.sessionId
      = some "sessK" ∧
    Node.connectResumeHeader
      (Node.handleClose (Node.disconnect nodeWithResumeKey) 1006 true true).node
      = Node.ResumeHeader.sessionHeader "sessK" :=
  ⟨(c6_session_cache nodeNoResumeKey).1 rfl,
   ((c6_session_cache nodeWithResumeKey).2 "key1" rfl).2.1 1006 true true,
   ((c6_session_cache nodeWithResumeKey).2 "key1" rfl).2.2 "sessK" rfl 1006 true true⟩

namespace RoyalLava

/-- Outcome of one `fetch` attempt inside `Rest.makeRequest`: a timeout
family exception (`TimeoutError` / `AbortError` /
`UND_ERR_CONNECT_TIMEOUT`), a connection refusal (`ECONNREFUSED`), some
other network exception, or an HTTP response with a status code. -/
inductive FetchOutcome where
  | timeoutErr
  | connRefused
  | otherNetErr
  | response (status : Nat)
deriving DecidableEq, Repr

/-- Observable result of running `Rest.makeRequest`: whether it resolved
(2xx), the thrown REST status for non-2xx, whether a network error was
(re)thrown, how many fetch attempts were made, the backoff waits
performed in order, and whether a `nodeError` was emitted for a
connection refusal. -/
structure RestRunResult where
  resolvedOk : Bool
  errStatus : Option Nat
  threwNetwork : Bool
  attemptsMade : Nat
  delays : List Nat
  emittedNodeError : Bool
deriving DecidableEq, Repr

namespace Rest

/-- `Rest.makeRequest` (part_004 lines 17-93), driven by a script
`outcomes` giving the result of the k-th fetch attempt.  A timeout
retries after `500 * attempt` ms while `attempt < retryAmount` and
otherwise throws; a connection refusal emits `nodeError` and rethrows
immediately (the `throw e` sits outside the else-if, so no retry
happens); any other network exception rethrows; a non-2xx response
throws a REST error carrying the status; a 2xx response resolves.
The debug logging and the 404 session-path bookkeeping do not affect
control flow and are not tracked. -/
def makeRequest (retryAmount : Nat) (outcomes : Nat → FetchOutcome) (attempt : Nat) :
    RestRunResult :=
  match outcomes attempt with
  | FetchOutcome.timeoutErr =>
      if attempt < retryAmount then
        let rest := makeRequest retryAmount outcomes (attempt + 1)
        { rest with
          attemptsMade := rest.attemptsMade + 1
          delays := 500 * attempt :: rest.delays }
      else
        { resolvedOk := false, errStatus := none, threwNetwork := true,
          attemptsMade := 1, delays := [], emittedNodeError := false }
  | FetchOutcome.connRefused =>
      { resolvedOk := false, errStatus := none, threwNetwork := true,
        attemptsMade := 1, delays := [], emittedNodeError := true }
  | FetchOutcome.otherNetErr =>
      { resolvedOk := false, errStatus := none, threwNetwork := true,
        attemptsMade := 1, delays := [], emittedNodeError := false }
  | FetchOutcome.response status =>
      if 200 ≤ status ∧ status ≤ 299 then
        { resolvedOk := true, errStatus := none, threwNetwork := false,
          attemptsMade := 1, delays := [], emittedNodeError := false }
      else
        { resolvedOk := false, errStatus := some status, threwNetwork := false,
          attemptsMade := 1, delays := [], emittedNodeError := false }
termination_by retryAmount - attempt

end Rest

end RoyalLava


namespace RoyalLava

/-- Unfolding lemma: a refused connection makes exactly one attempt,
emits a `nodeError`, performs no backoff wait, and rethrows. -/
theorem makeRequest_connRefused (retryAmount : Nat) (outcomes : Nat → FetchOutcome)
    (attempt : Nat) (h : outcomes attempt = FetchOutcome.connRefused) :
    Rest.makeRequest retryAmount outcomes attempt =
      { resolvedOk := false, errStatus := none, threwNetwork := true,
        attemptsMade := 1, delays := [], emittedNodeError := true } := by
  rw [Rest.makeRequest.eq_def, h]

/-- Unfolding lemma: a timeout with attempts left waits `500 * attempt`
and retries at `attempt + 1`, accumulating the attempt count. -/
theorem makeRequest_timeout_retry (retryAmount : Nat) (outcomes : Nat → FetchOutcome)
    (attempt : Nat) (h : outcomes attempt = FetchOutcome.timeoutErr)
    (hlt : attempt < retryAmount) :
    Rest.makeRequest retryAmount outcomes attempt =
      { Rest.makeRequest retryAmount outcomes (attempt + 1) with
        attemptsMade := (Rest.makeRequest retryAmount outcomes (attempt + 1)).attemptsMade + 1
        delays := 500 * attempt :: (Rest.makeRequest retryAmount outcomes (attempt + 1)).delays } := by
  rw [Rest.makeRequest.eq_def, h]
  simp [hlt]

/-- Unfolding lemma: a timeout with the attempt budget exhausted throws
after this single attempt. -/
theorem makeRequest_timeout_exhausted (retryAmount : Nat) (outcomes : Nat → FetchOutcome)
    (attempt : Nat) (h : outcomes attempt = FetchOutcome.timeoutErr)
    (hge : ¬attempt < retryAmount) :
    Rest.makeRequest retryAmount outcomes attempt =
      { resolvedOk := false, errStatus := none, threwNetwork := true,
        attemptsMade := 1, delays := [], emittedNodeError := false } := by
  rw [Rest.makeRequest.eq_def, h]
  simp [hge]

/-- Unfolding lemma: a non-2xx response throws a REST error carrying the
status after this single attempt, with no retry. -/
theorem makeRequest_non2xx (retryAmount : Nat) (outcomes : Nat → FetchOutcome)
    (attempt : Nat) (status : Nat) (h : outcomes attempt = FetchOutcome.response status)
    (hok : ¬(200 ≤ status ∧ status ≤ 299)) :
    Rest.makeRequest retryAmount outcomes attempt =
      { resolvedOk := false, errStatus := some status, threwNetwork := false,
        attemptsMade := 1, delays := [], emittedNodeError := false } := by
  rw [Rest.makeRequest.eq_def, h]
  simp [hok]

end RoyalLava

/-- C8 counterexample: the claim requires a connection-refused attempt
to be retried (up to retryAmount attempts with 500ms backoff).  With
retryAmount = 5 and every fetch attempt refused, the code makes exactly
one attempt, performs no backoff wait, and rethrows. -/
theorem c8_counterexample :
    (Rest.makeRequest 5 (fun _ => FetchOutcome.connRefused) 1).attemptsMade = 1 ∧
    (Rest.makeRequest 5 (fun _ => FetchOutcome.connRefused) 1).delays = [] ∧
    (Rest.makeRequest 5 (fun _ => FetchOutcome.connRefused) 1).threwNetwork = true ∧
    (1 : Nat) < 5 := by
  rw [makeRequest_connRefused 5 _ 1 rfl]
  exact ⟨rfl, rfl, rfl, by decide⟩

/-- C8 amended: a timeout is retried with linear backoff `500ms *
attempt` while `attempt < retryAmount` and throws once the attempt
budget is exhausted; a connection refusal is NOT retried — it emits a
`nodeError` and rethrows after a single attempt; a non-network non-2xx
response never retries and throws a REST error carrying its status. -/
theorem c8_amended (retryAmount : Nat) (outcomes : Nat → FetchOutcome) (attempt : Nat) :
    (outcomes attempt = FetchOutcome.connRefused →
      Rest.makeRequest retryAmount outcomes attempt =
        { resolvedOk := false, errStatus := none, threwNetwork := true,
          attemptsMade := 1, delays := [], emittedNodeError := true }) ∧
    (outcomes attempt = FetchOutcome.timeoutErr → attempt < retryAmount →
      (Rest.makeRequest retryAmount outcomes attempt).attemptsMade =
        (Rest.makeRequest retryAmount outcomes (attempt + 1)).attemptsMade + 1 ∧
      (Rest.makeRequest retryAmount outcomes attempt).delays =
        500 * attempt :: (Rest.makeRequest retryAmount outcomes (attempt + 1)).delays) ∧
    (outcomes attempt = FetchOutcome.timeoutErr → ¬attempt < retryAmount →
      Rest.makeRequest retryAmount outcomes attempt =
        { resolvedOk := false, errStatus := none, threwNetwork := true,
          attemptsMade := 1, delays := [], emittedNodeError := false }) ∧
    (∀ status, outcomes attempt = FetchOutcome.response status →
      ¬(200 ≤ status ∧ status ≤ 299) →
      Rest.makeRequest retryAmount outcomes attempt =
        { resolvedOk := false, errStatus := some status, threwNetwork := false,
          attemptsMade := 1, delays := [], emittedNodeError := false }) := by
  refine ⟨?_, ?_, ?_, ?_⟩
  · intro h
    exact makeRequest_connRefused retryAmount outcomes attempt h
  · intro h hlt
    rw [makeRequest_timeout_retry retryAmount outcomes attempt h hlt]
    exact ⟨rfl, rfl⟩
  · intro h hge
    exact makeRequest_timeout_exhausted retryAmount outcomes attempt h hge
  · intro status h hok
    exact makeRequest_non2xx retryAmount outcomes attempt status h hok

/-- C8 witness: evaluates the amended behaviors on concrete scripts —
refusal at attempt 1 with budget 5 (single attempt, no backoff); timeout
at attempt 1 with budget 2 (one retry after a 500ms wait); timeout with
budget 1 (no retry); a 404 response (no retry). -/
theorem c8_witness :
    Rest.makeRequest 5 (fun _ => FetchOutcome.connRefused) 1 =
      { resolvedOk := false, errStatus := none, threwNetwork := true,
        attemptsMade := 1, delays := [], emittedNodeError := true } ∧
    (Rest.makeRequest 2 (fun _ => FetchOutcome.timeoutErr) 1).attemptsMade =
      (Rest.makeRequest 2 (fun _ => FetchOutcome.timeoutErr) 2).attemptsMade + 1 ∧
    (Rest.makeRequest 2 (fun _ => FetchOutcome.timeoutErr) 1).delays =
      500 * 1 :: (Rest.makeRequest 2 (fun _ => FetchOutcome.timeoutErr) 2).delays ∧
    Rest.makeRequest 1 (fun _ => FetchOutcome.timeoutErr) 1 =
      { resolvedOk := false, errStatus := none, threwNetwork := true,
        attemptsMade := 1, delays := [], emittedNodeError := false } ∧
    Rest.makeRequest 5 (fun _ => FetchOutcome.response 404) 1 =
      { resolvedOk := false, errStatus := some 404, threwNetwork := false,
        attemptsMade := 1, delays := [], emittedNodeError := false } :=
  ⟨(c8_amended 5 (fun _ => FetchOutcome.connRefused) 1).1 rfl,
   ((c8_amended 2 (fun _ => FetchOutcome.timeoutErr) 1).2.1 rfl (by decide)).1,
   ((c8_amended 2 (fun _ => FetchOutcome.timeoutErr) 1).2.1 rfl (by decide)).2,
   (c8_amended 1 (fun _ => FetchOutcome.timeoutErr) 1).2.2.1 rfl (by decide),
   (c8_amended 5 (fun _ => FetchOutcome.response 404) 1).2.2.2 404 rfl (by decide)⟩

namespace RoyalLava

/-- A REST request as assembled by `Rest.makeRequest`: HTTP method,
endpoint path and query parameters. -/
structure RestRequest where
  method : String
  endpoint : String
  params : List (String × String)
deriving DecidableEq, Repr

/-- `Rest.loadTracks(identifier)` (part_004 lines 108-110): a GET to
`/v4/loadtracks` with the identifier passed verbatim as the single
query parameter. -/
def Rest.loadTracksRequest (identifier : String) : RestRequest :=
  { method := "GET", endpoint := "/v4/loadtracks", params := [("identifier", identifier)] }

/-- `Manager.loadTracks(identifier, requesterPlayer)` (src/Manager.js
lines 349-369) forwards the identifier string unchanged to
`node.rest.loadTracks`; no URL or search-tag inspection happens
anywhere on the way. -/
def managerLoadTracksRequest (q : String) : RestRequest :=
  Rest.loadTracksRequest q

/-- Character-list leading-match test (anchored match of a literal
pattern, as the anchored regexes in the claim perform). -/
def charsLead : List Char → List Char → Bool
  | [], _ => true
  | _ :: _, [] => false
  | c :: cs, d :: ds => c = d && charsLead cs ds

/-- Whether string `s` begins with the literal pattern `p`. -/
def strLead (p s : String) : Bool := charsLead p.data s.data

/-- Modelled from the claimed spec sentence (not from the source, which
has no such check): a query counts as a URL when it matches
`^(?:https?|ftp)://`. -/
def specIsUrl (q : String) : Bool :=
  strLead "http://" q || strLead "https://" q || strLead "ftp://" q

/-- Modelled from the claimed spec sentence (not from the source, which
has no such check): a query already carries a search tag when it matches
`^(ytsearch|ytmsearch|scsearch|amsearch|dzsearch|spsearch):`. -/
def specHasSearchTag (q : String) : Bool :=
  strLead "ytsearch:" q || strLead "ytmsearch:" q || strLead "scsearch:" q ||
    strLead "amsearch:" q || strLead "dzsearch:" q || strLead "spsearch:" q

/-- The identifier the spec claims is sent to the loadtracks endpoint:
bare text gets a `ytsearch:` tag, URLs and tagged queries pass
through. -/
def specLoadIdentifier (q : String) : String :=
  if specIsUrl q || specHasSearchTag q then q else "ytsearch:" ++ q

end RoyalLava

/-- C5 counterexample: the claim requires bare search text to be sent
with a `ytsearch:` tag.  The code sends it verbatim: for the query from
the spec example, the identifier parameter equals the query itself,
which differs from the spec-mandated tagged identifier. -/
theorem c5_counterexample :
    (managerLoadTracksRequest "never gonna give you up").params =
      [("identifier", "never gonna give you up")] ∧
    specLoadIdentifier "never gonna give you up" = "ytsearch:" ++ "never gonna give you up" ∧
    ("never gonna give you up" : String) ≠ "ytsearch:" ++ "never gonna give you up" := by
  refine ⟨rfl, ?_, by decide⟩
  unfold specLoadIdentifier
  rw [if_neg]
  simp only [Bool.or_eq_true, not_or]
  exact ⟨by decide, by decide⟩

/-- C5 amended: for every query, the identifier sent to the REST
loadtracks endpoint is the query unchanged — no `ytsearch:` tag is ever
applied.  URLs and already-tagged queries are therefore sent unchanged
as the claim says, but so is bare search text. -/
theorem c5_amended (q : String) :
    (managerLoadTracksRequest q).method = "GET" ∧
    (managerLoadTracksRequest q).endpoint = "/v4/loadtracks" ∧
    (managerLoadTracksRequest q).params = [("identifier", q)] :=
  ⟨rfl, rfl, rfl⟩

namespace RoyalLava

/-- `Constants.PLAYER_STATE` plus the string states `Player.js` assigns
directly (CONNECTING, WAITING_FOR_SERVER, DISCONNECTED,
DISCONNECTED_LAVALINK, CONNECTION_FAILED, DISCONNECTING). -/
inductive PState where
  | INSTANTIATED
  | CONNECTING
  | WAITING_FOR_SERVER
  | STOPPED
  | PLAYING
  | PAUSED
  | DISCONNECTED
  | DISCONNECTED_LAVALINK
  | CONNECTION_FAILED
  | DISCONNECTING
  | DESTROYED
deriving DecidableEq, Repr

/-- The per-guild `Player` state (src/Player.js) restricted to the
fields the playback claims exercise, with the bound node flattened to
its readiness flags (`node.connected`, `node.sessionId` non-null). -/
structure PlayerState where
  state : PState
  connected : Bool
  playing : Bool
  paused : Bool
  position : Int
  queue : QueueState
  loop : LoopMode
  nodeConnected : Bool
  nodeHasSession : Bool
deriving DecidableEq, Repr

namespace Player

/-- `get isConnected()` (src/Player.js line 105). -/
def isConnected (p : PlayerState) : Bool :=
  p.connected && !(p.state = PState.DISCONNECTED) && !(p.state = PState.CONNECTION_FAILED) &&
    !(p.state = PState.DISCONNECTED_LAVALINK)

/-- `get isPlaying()` (src/Player.js line 107). -/
def isPlaying (p : PlayerState) : Bool :=
  (p.state = PState.PLAYING) && p.playing && !p.paused

/-- `get isPaused()` (src/Player.js line 109). -/
def isPaused (p : PlayerState) : Bool :=
  p.paused && !(p.state = PState.STOPPED)

end Player

/-- The body of a player PATCH issued through `node.updatePlayer`: the
fields `play` / `stop` place in the Lavalink update payload (absent
fields are `none`). -/
structure PlayPayload where
  encodedTrack : Option String
  pausedField : Option Bool
  position : Option Int
  endTime : Option Int
deriving DecidableEq, Repr

/-- Observable side effects of the player command handlers: REST PATCH
calls (with the `noReplace` query flag) and emitted client events. -/
inductive PAction where
  | patch (payload : PlayPayload) (noReplace : Bool)
  | emitQueueEnd
  | emitTrackEnd
  | emitTrackStart
  | emitPlayerStop
  | emitQueueClear
  | emitError
  | emitWarn
deriving DecidableEq, Repr

/-- A thrown JavaScript exception. -/
inductive JsError where
  | typeError (msg : String)
  | jsError (msg : String)
deriving DecidableEq, Repr

/-- Result of running a player command handler: the player state at
completion (or at the point of the throw), the side effects performed
before completion or before the throw, and the thrown exception when
one escaped. -/
structure POut where
  p : PlayerState
  actions : List PAction
  err : Option JsError
deriving DecidableEq, Repr

namespace Player

/-- Options object of `Player.play`, with `noReplace` already resolved
from the `noReplace` / `replace` compatibility dance. -/
structure PlayOpts where
  startTime : Option Int
  endTime : Option Int
  pause : Bool
  noReplace : Bool
deriving DecidableEq, Repr

/-- The default `play` options (`{}`). -/
def opts0 : PlayOpts := { startTime := none, endTime := none, pause := false, noReplace := false }

/-- `Player.clearQueue` (src/Player.js lines 493-503): when upcoming
tracks exist, clear the whole queue object and emit `queueClear`.
(`Queue.clear` also wipes `current` and the history.) -/
def clearQueueCmd (p : PlayerState) : PlayerState × List PAction :=
  if p.queue.tracks.length > 0 then
    ({ p with queue := Queue.clear p.queue }, [PAction.emitQueueClear])
  else
    (p, [])

/-- `Player.stop(clearQueue)` (src/Player.js lines 709-760): reset the
local playback state, clear the current track through the queue setter,
move to STOPPED, optionally clear the queue, send `encodedTrack: null`
to the node when it is ready and something was playing, and emit
`playerStop` in that case.  REST errors are caught and only logged. -/
def stop (p : PlayerState) (clearQueue : Bool) : POut :=
  if p.state = PState.DESTROYED then { p := p, actions := [], err := none }
  else
    let wasPlayingOrPaused := isPlaying p || isPaused p ||
      (p.state = PState.PLAYING) || (p.state = PState.PAUSED)
    let p1 := { p with
      playing := false
      paused := false
      position := 0
      queue := Queue.setCurrent p.queue none }
    let p2 := if p1.state ≠ PState.DESTROYED then { p1 with state := PState.STOPPED } else p1
    let cq := if clearQueue then clearQueueCmd p2 else (p2, [])
    let patchActs :=
      if cq.1.nodeConnected && cq.1.nodeHasSession && wasPlayingOrPaused then
        [PAction.patch
          { encodedTrack := none, pausedField := none, position := none, endTime := none } false]
      else []
    let stopActs := if wasPlayingOrPaused then [PAction.emitPlayerStop] else []
    { p := cq.1, actions := cq.2 ++ patchActs ++ stopActs, err := none }

/-- Clamp of the requested start position against the current track
duration (src/Player.js lines 663-668): `Math.max(0, startTime)`,
capped at `info.length` when that duration is truthy (non-zero) and
exceeded. -/
def clampStart (st : Int) (current : Option Track) : Int :=
  let pos := max 0 st
  match current with
  | some tr =>
      match tr.length with
      | some d => if d ≠ 0 ∧ pos > d then d else pos
      | none => pos
  | none => pos

/-- The `position` payload field assembled at src/Player.js lines
663-668: present iff a non-negative numeric `startTime` was given,
clamped by `clampStart` against the current track. -/
def resolvedPosField (opts : PlayOpts) (current : Option Track) : Option Int :=
  match opts.startTime with
  | some st => if st ≥ 0 then some (clampStart st current) else none
  | none => none

/-- The `endTime` payload field assembled at src/Player.js lines
667-673: present iff a positive numeric `endTime` was given, and
deleted again when a `position` is present and `endTime ≤ position`. -/
def resolvedEndField (opts : PlayOpts) (posField : Option Int) : Option Int :=
  match opts.endTime with
  | some et =>
      if et > 0 then
        match posField with
        | some pos => if et ≤ pos then none else some et
        | none => some et
      else none
  | none => none

/-- Whether the `endTime <= startTime provided to play(), ignoring
endTime.` warning fires (src/Player.js line 671): exactly when a
positive `endTime` is dropped because a `position` is present and
`endTime ≤ position`. -/
def endTimeDropWarn (opts : PlayOpts) (posField : Option Int) : Bool :=
  match opts.endTime with
  | some et =>
      if et > 0 then
        match posField with
        | some pos => decide (et ≤ pos)
        | none => false
      else false
  | none => false

/-- Continuation of `Player.play` after `trackToPlay` has been resolved
(explicit argument or queue poll), mirroring src/Player.js lines
603-694: the `noReplace` short-circuits, the queue-end branch, the
`current` assignment (through the history-pushing setter), payload
assembly with position clamping and endTime validation (emitting the
warn when the endTime is dropped), the PATCH, and the tentative local
state update on the ack. -/
def playResolved (p : PlayerState) (trackToPlay : Option Track) (explicit : Bool)
    (opts : PlayOpts) : POut :=
  let isCurrentlyPlaying := isPlaying p || (p.playing && p.paused)
  if opts.noReplace ∧ isCurrentlyPlaying ∧ explicit ∧ trackToPlay = p.queue.current then
    { p := p, actions := [], err := none }
  else if opts.noReplace ∧ isCurrentlyPlaying ∧ ¬explicit then
    { p := p, actions := [], err := none }
  else if trackToPlay = none ∧ p.queue.current = none then
    if p.state = PState.PLAYING ∨ p.state = PState.PAUSED ∨ p.state = PState.STOPPED then
      let s := stop p false
      { p := s.p, actions := PAction.emitQueueEnd :: s.actions, err := none }
    else
      { p := p, actions := [], err := none }
  else
    let p1 :=
      if explicit ∧ trackToPlay.isSome then { p with queue := Queue.setCurrent p.queue trackToPlay }
      else p
    match trackToPlay with
    | none =>
        { p := p1, actions := [],
          err := some (JsError.typeError "Cannot read properties of undefined (reading encoded)") }
    | some t =>
        if t.encoded = "" then
          { p := p1, actions := [PAction.emitError], err := none }
        else
          let posField : Option Int := resolvedPosField opts p1.queue.current
          let endField : Option Int := resolvedEndField opts posField
          let isReplacing := isCurrentlyPlaying
          let payload : PlayPayload :=
            { encodedTrack := some t.encoded, pausedField := some opts.pause,
              position := posField, endTime := endField }
          let p2 := { p1 with
            paused := opts.pause
            position := posField.getD 0
            state :=
              if opts.pause then PState.PAUSED
              else if isReplacing then p1.state
              else PState.PLAYING }
          { p := p2
            actions := (if endTimeDropWarn opts posField then [PAction.emitWarn] else []) ++
              [PAction.patch payload isReplacing]
            err := none }

/-- `Player.play(track, options)` (src/Player.js lines 565-699) for the
path where the REST PATCH succeeds (claim C9 quantifies over successful
calls; the catch path re-enters queue progression and is not needed by
any claim).  An encoded-string argument behaves like a track object
whose `encoded` is the string itself, so tracks are modelled as
objects.  The `trackToPlay === this.current` comparison is reference
equality in JS; it is modelled as value equality here. -/
def play (p : PlayerState) (track : Option Track) (opts : PlayOpts) : POut :=
  if p.state = PState.DESTROYED then
    { p := p, actions := [], err := some (JsError.jsError "Player is destroyed.") }
  else if ¬isConnected p ∧ p.state ≠ PState.WAITING_FOR_SERVER then
    { p := p, actions := [], err := some (JsError.jsError "Player not connected. Cannot play.") }
  else if ¬p.nodeConnected ∨ ¬p.nodeHasSession then
    { p := p, actions := [PAction.emitWarn],
      err := some (JsError.jsError "Cannot play: Lavalink node is not connected or ready.") }
  else
    match track with
    | some t =>
        if t.uri = "" then
          { p := p, actions := [],
            err := some (JsError.jsError "Invalid track provided. Must be encoded string or track object with info.") }
        else
          playResolved p (some t) true opts
    | none =>
        let polled := Queue.poll p.queue
        playResolved { p with queue := polled.2 } polled.1 false opts

end Player

end RoyalLava

namespace RoyalLava

namespace Player

/-- The `.catch(e => this._emitError(...))` wrapper around the `play`
calls inside queue progression: a rejection is swallowed and surfaces
only as an emitted error. -/
def caughtPlay (o : POut) : POut :=
  match o.err with
  | some _ => { p := o.p, actions := o.actions ++ [PAction.emitError], err := none }
  | none => o

/-- Steps 4-5 of `Player._handleTrackEnd` (src/Player.js lines
1792-1817): default queue progression.  Poll the queue; play the next
track when one exists (and the player is connected); otherwise reset to
STOPPED and then execute `this.current = null` — the `Player` class
declares only a getter for `current`, and class bodies are strict-mode
code, so that assignment throws a TypeError before `queueEnd` can be
emitted. -/
def progressionDefault (p : PlayerState) (acc : List PAction) : POut :=
  let polled := Queue.poll p.queue
  let p1 := { p with queue := polled.2 }
  match polled.1 with
  | some nt =>
      if isConnected p1 then
        let o := caughtPlay (play p1 (some nt) opts0)
        { o with actions := acc ++ o.actions }
      else
        { p := p1, actions := acc ++ [PAction.emitWarn], err := none }
  | none =>
      let p2 := if p1.state ≠ PState.DESTROYED then { p1 with state := PState.STOPPED } else p1
      let p3 := { p2 with playing := false, paused := false }
      { p := p3, actions := acc,
        err := some (JsError.typeError
          "Cannot set property current of Player which has only a getter") }

/-- Steps 2-5 of `Player._handleTrackEnd` (src/Player.js lines
1755-1817): the stop/replace/cleanup short-circuit, then the QUEUE-loop
progression, then the default progression. -/
def progressionRest (p : PlayerState) (reason : String) : POut :=
  if reason = "stopped" ∨ reason = "replaced" ∨ reason = "cleanup" then
    if p.queue.current = none ∧ Queue.isEmpty p.queue then
      { p := p, actions := [PAction.emitQueueEnd], err := none }
    else
      { p := p, actions := [], err := none }
  else if p.loop = LoopMode.QUEUE then
    let polled := Queue.poll p.queue
    let p1 := { p with queue := polled.2 }
    match polled.1 with
    | some nt =>
        if isConnected p1 then caughtPlay (play p1 (some nt) opts0)
        else { p := p1, actions := [PAction.emitWarn], err := none }
    | none => progressionDefault p1 [PAction.emitWarn]
  else
    progressionDefault p []

/-- `Player._handleTrackEnd(payload, previousTrack)` (src/Player.js
lines 1711-1817): no-op for destroyed/disconnecting players; on TRACK
loop with reason `finished`, replay the ended track (falling back to the
oldest history entry, `history.slice(-1)[0]`), warning and falling
through to ordinary progression when there is nothing to replay. -/
def handleTrackEndProgression (p : PlayerState) (reason : String)
    (previousTrack : Option Track) : POut :=
  if p.state = PState.DESTROYED ∨ p.state = PState.DISCONNECTING then
    { p := p, actions := [], err := none }
  else if p.loop = LoopMode.TRACK ∧ reason = "finished" then
    match previousTrack.orElse (fun _ => p.queue.previousTracks.getLast?) with
    | some tr =>
        if isConnected p then caughtPlay (play p (some tr) opts0)
        else { p := p, actions := [PAction.emitWarn], err := none }
    | none =>
        let o := progressionRest p reason
        { o with actions := PAction.emitWarn :: o.actions }
  else
    progressionRest p reason

/-- The TRACK_START case of `Player._handleEvent` (src/Player.js lines
1539-1554): mark playing, un-pause, move to PLAYING, reset the position
estimate, emit `trackStart`.  (Events for destroyed players are dropped
at the top of `_handleEvent`.) -/
def handleTrackStart (p : PlayerState) : POut :=
  if p.state = PState.DESTROYED then { p := p, actions := [], err := none }
  else
    { p := { p with playing := true, paused := false, state := PState.PLAYING, position := 0 },
      actions := [PAction.emitTrackStart], err := none }

/-- The TRACK_END case of `Player._handleEvent` (src/Player.js lines
1557-1600).  When a track was current and the reason is not `replaced`,
the code first calls `this.queue.addToHistory(previousTrack)` — but
`Queue` (src/Queue.js) defines no `addToHistory` method, so that call
throws a TypeError and nothing further happens (no state reset, no
`trackEnd` emission, no queue progression, no PATCH).  Otherwise the
playback state is reset (through the `current` setter), `trackEnd` is
emitted and queue progression runs. -/
def handleEventTrackEnd (p : PlayerState) (reason : String) : POut :=
  if p.state = PState.DESTROYED then { p := p, actions := [], err := none }
  else
    let previousTrack := p.queue.current
    if previousTrack.isSome ∧ reason ≠ "replaced" then
      { p := p, actions := [],
        err := some (JsError.typeError "this.queue.addToHistory is not a function") }
    else
      let p1 :=
        if reason ≠ "replaced" then
          let pa := { p with
            playing := false
            paused := false
            position := 0
            queue := Queue.setCurrent p.queue none }
          if pa.state ≠ PState.DESTROYED ∧ pa.state ≠ PState.DISCONNECTING then
            { pa with state := PState.STOPPED }
          else pa
        else { p with queue := Queue.setCurrent p.queue none }
      if p1.state ≠ PState.DESTROYED then
        let ht := handleTrackEndProgression p1 reason previousTrack
        { p := ht.p, actions := PAction.emitTrackEnd :: ht.actions, err := ht.err }
      else
        { p := p1, actions := [PAction.emitTrackEnd], err := none }

/-- `Player.skip()` (src/Player.js lines 765-799) together with its JS
return value.  After the destroyed/connected guards and the
empty-player short-circuit, the code calls `this.queue.peek()` — but
`Queue` (src/Queue.js) defines no `peek` method, so the call throws a
TypeError before any play or stop command can be issued. -/
def skip (p : PlayerState) : POut × Option Track :=
  if p.state = PState.DESTROYED then
    ({ p := p, actions := [], err := some (JsError.jsError "Player is destroyed.") }, none)
  else if ¬isConnected p then
    ({ p := p, actions := [], err := some (JsError.jsError "Player is not connected.") }, none)
  else
    let skippedTrack := p.queue.current
    if skippedTrack = none ∧ Queue.isEmpty p.queue then
      (stop p false, none)
    else
      ({ p := p
         actions := []
         err := some (JsError.typeError "this.queue.peek is not a function") }, none)

end Player

/-- The C1 scenario: a fully connected player on a ready node, loop mode
TRACK (on both the player and its queue), current track `trackA`, empty
upcoming queue, currently PLAYING. -/
def playerTrackLoop : PlayerState :=
  { state := PState.PLAYING, connected := true, playing := true, paused := false, position := 5,
    queue := { tracks := [], previousTracks := [], current := some trackA,
               loop := LoopMode.TRACK },
    loop := LoopMode.TRACK, nodeConnected := true, nodeHasSession := true }

/-- The C2 scenario: a fully connected player, current track `trackA`,
next track `trackB` waiting in the queue. -/
def playerSkipScenario : PlayerState :=
  { state := PState.PLAYING, connected := true, playing := true, paused := false, position := 5,
    queue := { tracks := [trackB], previousTracks := [], current := some trackA,
               loop := LoopMode.NONE },
    loop := LoopMode.NONE, nodeConnected := true, nodeHasSession := true }

/-- The C9 scenario: a connected, idle (STOPPED) player on a ready node
about to receive a fresh `play(trackA)`. -/
def playerStoppedFresh : PlayerState :=
  { state := PState.STOPPED, connected := true, playing := false, paused := false, position := 0,
    queue := { tracks := [], previousTracks := [], current := none, loop := LoopMode.NONE },
    loop := LoopMode.NONE, nodeConnected := true, nodeHasSession := true }

end RoyalLava

/-- C1 (code bug): in the TRACK-loop queue-end scenario (current =
trackA, queue empty, loop TRACK), handling `TrackEndEvent` with reason
`finished` throws a TypeError at `this.queue.addToHistory(...)` —
`Queue` has no such method — so no PATCH is issued at all (in
particular, not the claimed replay PATCH carrying `trackA.encoded`) and
no `queueEnd` is emitted. -/
theorem c1_track_loop_replay_crashes :
    (Player.handleEventTrackEnd playerTrackLoop "finished").err =
      some (JsError.typeError "this.queue.addToHistory is not a function") ∧
    (Player.handleEventTrackEnd playerTrackLoop "finished").actions = [] := by
  exact ⟨rfl, rfl⟩

/-- C2 (code bug): with a track playing and a next track queued, the
connected player's `skip()` throws a TypeError at `this.queue.peek()` —
`Queue` has no such method — so neither `play(next)` nor `stop(false)`
is issued and no track is returned. -/
theorem c2_skip_crashes :
    (Player.skip playerSkipScenario).1.err =
      some (JsError.typeError "this.queue.peek is not a function") ∧
    (Player.skip playerSkipScenario).1.actions = [] ∧
    (Player.skip playerSkipScenario).2 = none := by
  exact ⟨rfl, rfl, rfl⟩

/-- C9 counterexample: a fresh unpaused `play(trackA)` on a connected,
STOPPED player succeeds (PATCH issued, no error) and already sets the
local `state` to PLAYING on the PATCH ack, before any `TrackStartEvent`
is handled — contradicting the claim that state becomes PLAYING only on
the server-delivered TrackStartEvent. -/
theorem c9_counterexample :
    (Player.play playerStoppedFresh (some trackA) Player.opts0).err = none ∧
    (Player.play playerStoppedFresh (some trackA) Player.opts0).p.state = PState.PLAYING ∧
    playerStoppedFresh.state ≠ PState.PLAYING ∧
    (Player.play playerStoppedFresh (some trackA) Player.opts0).actions =
      [PAction.patch
        { encodedTrack := some "encA", pausedField := some false,
          position := none, endTime := none } false] := by
  refine ⟨rfl, rfl, by decide, rfl⟩

/-- C9 amended: on a successful `play(track)` (guards passed, a PATCH
issued, REST succeeded) the `playing` flag is left untouched — it
becomes true only when the TrackStartEvent is handled, which also sets
state PLAYING — but the `state` field is updated tentatively on the
PATCH ack already: PAUSED when `pause` was requested, kept unchanged
when a track was already loaded (replacement), and set to PLAYING for a
fresh unpaused play.  The issued actions are exactly one PATCH carrying
the track and pause flag, preceded by the ignoring-endTime warning
when a positive `endTime` not exceeding the clamped start position was
supplied. -/
theorem c9_amended (p : PlayerState) (t : Track) (opts : Player.PlayOpts)
    (hd : p.state ≠ PState.DESTROYED)
    (hc : ¬(¬Player.isConnected p ∧ p.state ≠ PState.WAITING_FOR_SERVER))
    (hn : ¬(¬p.nodeConnected ∨ ¬p.nodeHasSession))
    (hu : t.uri ≠ "")
    (hnr : ¬(opts.noReplace = true ∧ (Player.isPlaying p || (p.playing && p.paused)) = true))
    (he : t.encoded ≠ "") :
    (Player.play p (some t) opts).err = none ∧
    (Player.play p (some t) opts).p.playing = p.playing ∧
    (Player.play p (some t) opts).p.state =
      (if opts.pause then PState.PAUSED
       else if (Player.isPlaying p || (p.playing && p.paused)) then p.state
       else PState.PLAYING) ∧
    (∃ pay, (Player.play p (some t) opts).actions =
        (if Player.endTimeDropWarn opts
            (Player.resolvedPosField opts (Queue.setCurrent p.queue (some t)).current) then
          [PAction.emitWarn]
        else []) ++
        [PAction.patch pay (Player.isPlaying p || (p.playing && p.paused))] ∧
      pay.encodedTrack = some t.encoded ∧ pay.pausedField = some opts.pause) ∧
    (∀ q : PlayerState, q.state ≠ PState.DESTROYED →
      (Player.handleTrackStart q).p.state = PState.PLAYING ∧
      (Player.handleTrackStart q).p.playing = true) := by
  have heq : Player.play p (some t) opts = Player.playResolved p (some t) true opts := by
    unfold Player.play
    rw [if_neg hd, if_neg hc, if_neg hn]
    dsimp only
    rw [if_neg hu]
  rw [heq]
  unfold Player.playResolved
  rw [if_neg (fun h => hnr ⟨h.1, h.2.1⟩)]
  rw [if_neg (fun h => absurd rfl h.2.2)]
  rw [if_neg (fun h => Option.noConfusion h.1)]
  dsimp only
  rw [if_neg he]
  dsimp only
  refine ⟨rfl, rfl, rfl, ⟨_, rfl, rfl, rfl⟩, ?_⟩
  intro q hq
  unfold Player.handleTrackStart
  rw [if_neg hq]
  exact ⟨rfl, rfl⟩

/-- C9 witness: the amended theorem instantiated at the concrete
STOPPED-player scenario playing `trackA` with default options. -/
theorem c9_witness :
    (Player.play playerStoppedFresh (some trackA) Player.opts0).err = none ∧
    (Player.play playerStoppedFresh (some trackA) Player.opts0).p.playing =
      playerStoppedFresh.playing ∧
    (Player.play playerStoppedFresh (some trackA) Player.opts0).p.state =
      (if Player.opts0.pause then PState.PAUSED
       else if (Player.isPlaying playerStoppedFresh ||
          (playerStoppedFresh.playing && playerStoppedFresh.paused)) then
         playerStoppedFresh.state
       else PState.PLAYING) ∧
    (∃ pay, (Player.play playerStoppedFresh (some trackA) Player.opts0).actions =
        (if Player.endTimeDropWarn Player.opts0
            (Player.resolvedPosField Player.opts0
              (Queue.setCurrent playerStoppedFresh.queue (some trackA)).current) then
          [PAction.emitWarn]
        else []) ++
        [PAction.patch pay (Player.isPlaying playerStoppedFresh ||
          (playerStoppedFresh.playing && playerStoppedFresh.paused))] ∧
      pay.encodedTrack = some trackA.encoded ∧
      pay.pausedField = some Player.opts0.pause) ∧
    (∀ q : PlayerState, q.state ≠ PState.DESTROYED →
      (Player.handleTrackStart q).p.state = PState.PLAYING ∧
      (Player.handleTrackStart q).p.playing = true) :=
  c9_amended playerStoppedFresh trackA Player.opts0 (by decide) (by decide) (by decide)
    (by decide) (by decide) (by decide)
